import Mathlib

/-!
Verification of the asynchronous file-enrichment pipeline
(`backend/app` of the repository): the upload/dedup coordinator
(`api/endpoints/files.py`), the rate limiter and quota tracker
(`utils/rate_limiter.py`), the AI provider gateway with fallback
(`services/ai_service.py`, `services/ollama_service.py`), the enrichment
worker and periodic sweep (`workers/tasks/file_processing.py`), and the
thumbnail tasks (`workers/tasks/thumbnail.py`).

The Python source is shallowly embedded: each endpoint/task becomes a pure
Lean function from its inputs and the relevant store states to its result,
new store states, and a record of its side effects.  External collaborators
(object store, Redis, the two AI providers' network endpoints, text and
metadata extraction) are passed in as explicit parameters, mirroring the
spec's black-box interfaces.
-/

namespace Pipeline

/-! ### Rate limiter and quota tracker (`app/utils/rate_limiter.py`) -/

namespace RateLimiter

/-- Gemini free-tier request-per-minute cap (`self.rpm_limit = 15`). -/
def rpm_limit : Nat := 15

/-- Gemini free-tier daily cap (`self.daily_limit = 1500`). -/
def daily_limit : Nat := 1500

/-- The two Redis counters (`gemini:rate:rpm` and the per-day key).
A missing key reads as 0. -/
structure Counters where
  rpmCount : Nat
  dailyCount : Nat
deriving DecidableEq, Repr

/-- The `reason` strings returned by `check_rate_limit`. -/
inductive Reason where
  | rate_limit_rpm
  | quota_exceeded
deriving DecidableEq, Repr

/-- Model of `RateLimiter.check_rate_limit`: read-only check of both counters.
Python's `if current_rpm and int(current_rpm) >= self.rpm_limit` is the
truthiness-guarded comparison `0 < count ∧ limit ≤ count`. -/
def check_rate_limit (c : Counters) : Bool × Option Reason :=
  if 0 < c.rpmCount ∧ rpm_limit ≤ c.rpmCount then (false, some .rate_limit_rpm)
  else if 0 < c.dailyCount ∧ daily_limit ≤ c.dailyCount then (false, some .quota_exceeded)
  else (true, none)

/-- Model of `RateLimiter.increment_usage`: increments both counters (the
expiry-on-first-write bookkeeping acts on Redis TTLs, not on the counts). -/
def increment_usage (c : Counters) : Counters :=
  { rpmCount := c.rpmCount + 1, dailyCount := c.dailyCount + 1 }

/-- Model of `RateLimiter.should_use_fallback`: fallback whenever `check_rate_limit`
disallows, independent of the reason. -/
def should_use_fallback (c : Counters) : Bool :=
  !(check_rate_limit c).1

/-- Model of `RateLimiter.wait_if_needed`: never waits on daily exhaustion; on an RPM
hit it sleeps out the window iff the key's TTL is in `(0, max_wait]`.
`ttl` is the Redis TTL of the RPM key (may be ≤ 0 for a missing key). -/
def wait_if_needed (c : Counters) (ttl : Int) (max_wait_seconds : Int) : Bool :=
  match (check_rate_limit c).2 with
  | some .quota_exceeded => false
  | some .rate_limit_rpm => if 0 < ttl ∧ ttl ≤ max_wait_seconds then true else false
  | none => true

end RateLimiter

/-- The two interchangeable AI providers. -/
inductive Provider where
  | gemini
  | ollama
deriving DecidableEq, Repr

/-- Entries `QuotaTracker.log_request` appends one of these to the usage history
(`gemini:usage:history`); entries are append-only. -/
structure LogEntry where
  success : Bool
  model : Provider
  error : Option String
deriving DecidableEq, Repr

/-! ### Tag payloads and the JSON tag-array reader

`json.loads` is Python's standard library.  Modelled from the spec: a
reader for the exact payload shape both providers are prompted to return —
a JSON array of `{"tag": <string>, "confidence": <number>}` objects — which
succeeds only when the whole (whitespace-trimmed) input is such an array,
as `json.loads` rejects any leading or trailing non-JSON text.  Confidence
values are kept as their source text, so no floating point enters the
model. -/

/-- One parsed tag object. `confidence` is the number's literal text. -/
structure TagObj where
  tag : String
  confidence : String
deriving DecidableEq, Repr

namespace Json

/-- Drop leading JSON whitespace. -/
def skipWs : List Char → List Char
  | [] => []
  | c :: cs => if c = ' ' ∨ c = '\n' ∨ c = '\t' ∨ c = '\r' then skipWs cs else c :: cs

/-- Read up to the closing quote of a JSON string (escapes not modelled;
none appear in the payload shape). -/
def takeUntilQuote : List Char → Option (List Char × List Char)
  | [] => none
  | c :: cs =>
    if c = '"' then some ([], cs)
    else (takeUntilQuote cs).map (fun p => (c :: p.1, p.2))

/-- Parse a JSON string literal. -/
def parseJString : List Char → Option (String × List Char)
  | c :: cs =>
    if c = '"' then (takeUntilQuote cs).map (fun p => (String.mk p.1, p.2))
    else none
  | [] => none

/-- Characters that may appear in a JSON number literal. -/
def isNumChar (c : Char) : Bool :=
  c.isDigit || c = '.' || c = '-' || c = '+' || c = 'e' || c = 'E'

/-- Parse a JSON number literal, kept as text. -/
def parseNum (cs : List Char) : Option (String × List Char) :=
  let n := cs.takeWhile isNumChar
  if n.isEmpty then none else some (String.mk n, cs.drop n.length)

/-- Expect one exact character after optional whitespace. -/
def expectChar (c : Char) (cs : List Char) : Option (List Char) :=
  match skipWs cs with
  | d :: rest => if d = c then some rest else none
  | [] => none

/-- Expect a key string equal to `k`, after optional whitespace. -/
def expectKey (k : String) (cs : List Char) : Option (List Char) :=
  match parseJString (skipWs cs) with
  | some (s, rest) => if s = k then some rest else none
  | none => none

/-- Parse one `{"tag": ..., "confidence": ...}` object. -/
def parseTagObj (cs : List Char) : Option (TagObj × List Char) := do
  let cs ← expectChar '{' cs
  let cs ← expectKey "tag" cs
  let cs ← expectChar ':' cs
  let (t, cs) ← parseJString (skipWs cs)
  let cs ← expectChar ',' cs
  let cs ← expectKey "confidence" cs
  let cs ← expectChar ':' cs
  let (v, cs) ← parseNum (skipWs cs)
  let cs ← expectChar '}' cs
  pure (⟨t, v⟩, cs)

/-- Parse a nonempty comma-separated run of tag objects (fuel-bounded). -/
def parseObjList : Nat → List Char → Option (List TagObj × List Char)
  | 0, _ => none
  | fuel + 1, cs =>
    match parseTagObj cs with
    | none => none
    | some (o, rest) =>
      match skipWs rest with
      | ',' :: rest2 => (parseObjList fuel rest2).map (fun p => (o :: p.1, p.2))
      | rest2 => some ([o], rest2)

/-- The whole reader: the trimmed input must be exactly one array. -/
def parseTagArray (s : String) : Option (List TagObj) :=
  match skipWs s.toList with
  | '[' :: cs =>
    match skipWs cs with
    | ']' :: rest => if (skipWs rest).isEmpty then some [] else none
    | cs2 =>
      match parseObjList (cs2.length + 1) cs2 with
      | some (os, rest) =>
        match skipWs rest with
        | ']' :: rest2 => if (skipWs rest2).isEmpty then some os else none
        | _ => none
      | none => none
  | _ => none

end Json

/-- Python's substring containment test `sub in s`, over char lists. -/
def hasSub : List Char → List Char → Bool
  | [], sub => sub.isEmpty
  | c :: tl, sub => sub.isPrefixOf (c :: tl) || hasSub tl sub

/-- Containment `sub in s` on strings. -/
def strContains (s sub : String) : Bool :=
  hasSub s.toList sub.toList

/-! Python string methods embedded as structural recursion over char
lists (`strip`, `split`, `replace`, `lower`, `startswith`). -/

/-- The whitespace `str.strip()` removes. -/
def isWs (c : Char) : Bool :=
  c = ' ' || c = '\n' || c = '\t' || c = '\r'

/-- Model of `str.strip()` over chars. -/
def pyTrim (cs : List Char) : List Char :=
  ((cs.dropWhile isWs).reverse.dropWhile isWs).reverse

/-- Model of `str.strip()`. -/
def pyStrTrim (s : String) : String :=
  String.mk (pyTrim s.toList)

/-- Worker for `str.split(sep)`; `fuel` bounds the recursion (passing
`length + 1` makes it total on the input). -/
def pySplitGo (sep : List Char) : Nat → List Char → List Char → List (List Char)
  | 0, acc, _ => [acc.reverse]
  | _ + 1, acc, [] => [acc.reverse]
  | fuel + 1, acc, c :: rest =>
    if sep.isPrefixOf (c :: rest) then
      acc.reverse :: pySplitGo sep fuel [] (rest.drop (sep.length - 1))
    else
      pySplitGo sep fuel (c :: acc) rest

/-- Model of `str.split(sep)` for a nonempty separator. -/
def pyStrSplit (s sep : String) : List String :=
  (pySplitGo sep.toList (s.toList.length + 1) [] s.toList).map String.mk

/-- Worker for `str.replace(old, new)` (nonempty `old`). -/
def pyReplaceGo (old new : List Char) : Nat → List Char → List Char
  | 0, cs => cs
  | _ + 1, [] => []
  | fuel + 1, c :: rest =>
    if old.isPrefixOf (c :: rest) then
      new ++ pyReplaceGo old new fuel (rest.drop (old.length - 1))
    else
      c :: pyReplaceGo old new fuel rest

/-- Model of `str.replace(old, new)` for a nonempty `old`. -/
def pyStrReplace (s old new : String) : String :=
  String.mk (pyReplaceGo old.toList new.toList (s.toList.length + 1) s.toList)

/-- Model of `str.lower()` restricted to ASCII, which is all the sources feed
it. -/
def pyToLower (s : String) : String :=
  String.mk (s.toList.map (fun c =>
    if 'A' ≤ c ∧ c ≤ 'Z' then Char.ofNat (c.toNat + 32) else c))

/-- Model of `str.startswith(pre)`. -/
def pyStartsWith (s pre : String) : Bool :=
  pre.toList.isPrefixOf s.toList

/-! ### AI provider gateway (`app/services/ai_service.py`) and its local
fallback (`app/services/ollama_service.py`)

Each provider sub-operation's network call is an input: `some text` is the
provider's response text (`response.text` for Gemini, the stripped
`response` field for Ollama), `none` means the call raised after its
bounded retries. -/

/-- The four enrichment outputs (`analyze_file`'s result minus
`model_used`).  Embedding components are abstracted to `Int`; no claim
inspects their numeric values. -/
structure AIResult where
  suggested_filename : String
  summary : String
  tags : List TagObj
  embedding : List Int
deriving DecidableEq, Repr

/-- Outcomes of the four Gemini sub-operations for one `analyze_file`
call.  `embeddingResp = .error e` is an unrecoverable primary failure
(`generate_embedding` is the one sub-operation that re-raises; the other
three swallow their errors and degrade). -/
structure GeminiEnv where
  filenameResp : Option String
  summaryResp : Option String
  tagsResp : Option String
  embeddingResp : Except String (List Int)
deriving Repr

/-- Outcomes of the four Ollama sub-operations for one
`OllamaService.analyze_file` call. -/
structure OllamaEnv where
  filenameResp : Option String
  summaryResp : Option String
  tagsResp : Option String
  embeddingResp : Option (List Int)
deriving DecidableEq, Repr

namespace AIService

/-- Model of `AIService.generate_filename`: clean the response
(`strip`, spaces to `_`, `/` to `-`); any error falls back to the
original filename. -/
def generate_filename (resp : Option String) (original_filename : String) : String :=
  match resp with
  | some t => pyStrReplace (pyStrReplace (pyStrTrim t) " " "_") "/" "-"
  | none => original_filename

/-- Model of `AIService.summarize_content`: the stripped response, or the fixed
apology on any error. -/
def summarize_content (resp : Option String) : String :=
  match resp with
  | some t => pyStrTrim t
  | none => "Unable to generate summary"

/-- The fence-stripping step of `AIService.generate_tags`: cut out a
markdown code fence when one is present
(`split("```json")[1].split("```")[0]`, else `split("```")[1]`),
otherwise keep the text as is. -/
def cleanFences (t0 : String) : String :=
  if strContains t0 "```json" then
    pyStrTrim ((pyStrSplit ((pyStrSplit t0 "```json").getD 1 "") "```").headD "")
  else if strContains t0 "```" then
    pyStrTrim ((pyStrSplit ((pyStrSplit t0 "```").getD 1 "") "```").headD "")
  else t0

/-- The single fallback tag `[{"tag": "document", "confidence": 0.5}]`
returned when Gemini tag generation fails in any way. -/
def fallbackTags : List TagObj := [⟨"document", "0.5"⟩]

/-- Model of `AIService.generate_tags` on a successful API call: strip the
response, cut fences, then `json.loads`; any failure degrades to the
single fallback tag. -/
def generate_tags (resp : String) : List TagObj :=
  match Json.parseTagArray (cleanFences (pyStrTrim resp)) with
  | some ts => ts
  | none => fallbackTags

end AIService

namespace OllamaService

/-- Python `str.strip('"\'')` on both ends (`Char.ofNat 39` is the
apostrophe). -/
def stripQuotes (s : String) : String :=
  let isQ := fun c => c = '"' ∨ c = Char.ofNat 39
  String.mk (((s.toList.dropWhile isQ).reverse.dropWhile isQ).reverse)

/-- Model of `OllamaService.generate_filename`: clean the response; any error
falls back to the original filename. -/
def generate_filename (resp : Option String) (original_filename : String) : String :=
  match resp with
  | some t => stripQuotes (pyStrTrim (pyStrReplace (pyStrReplace (pyStrTrim t) " " "_") "/" "-"))
  | none => original_filename

/-- Model of `OllamaService.summarize_content`. -/
def summarize_content (resp : Option String) : String :=
  match resp with
  | some t => pyStrTrim t
  | none => "Unable to generate summary"

/-- Python slice `t[t.index("["):t.rindex("]") + 1]`. -/
def sliceBrackets (cs : List Char) : List Char :=
  let i := cs.findIdx (fun c => c = '[')
  let j := cs.length - 1 - cs.reverse.findIdx (fun c => c = ']')
  (cs.take (j + 1)).drop i

/-- The two-tag fallback returned on a `json.JSONDecodeError`. -/
def decodeErrorTags : List TagObj := [⟨"document", "0.6"⟩, ⟨"general", "0.5"⟩]

/-- The array-extraction step of `OllamaService.generate_tags`: when the
text contains both brackets, keep only the slice from the first `[` to
the last `]`; otherwise keep it as is. -/
def extractArray (t0 : String) : String :=
  let cs := t0.toList
  if cs.contains '[' ∧ cs.contains ']' then String.mk (sliceBrackets cs) else t0

/-- Model of `OllamaService.generate_tags` on a successful call: extract the
bracket-delimited slice, then `json.loads`; a decode failure degrades to
the two-tag fallback. -/
def generate_tags (resp : String) : List TagObj :=
  match Json.parseTagArray (extractArray (pyStrTrim resp)) with
  | some ts => ts
  | none => decodeErrorTags

/-- The single fallback tag returned when the Ollama tag call raises. -/
def errorTags : List TagObj := [⟨"document", "0.5"⟩]

/-- Fallback of `OllamaService.generate_embedding`: the zero vector
(dimensionality fixed at 768). -/
def zeroVector : List Int := List.replicate 768 0

/-- Model of `OllamaService.analyze_file`: runs the four sub-operations; every one
degrades internally, so the call as a whole always returns a result. -/
def analyze_file (env : OllamaEnv) (filename : String) : AIResult :=
  { suggested_filename := generate_filename env.filenameResp filename
    summary := summarize_content env.summaryResp
    tags :=
      match env.tagsResp with
      | some t => generate_tags t
      | none => errorTags
    embedding := env.embeddingResp.getD zeroVector }

end OllamaService

/-- Shape of `AIService.analyze_file`'s returned dict: the four outputs plus
`model_used`. -/
structure AnalyzeResult where
  suggested_filename : String
  summary : String
  tags : List TagObj
  embedding : List Int
  model_used : Provider
deriving DecidableEq, Repr

/-- Attach `model_used` to a provider result. -/
def AnalyzeResult.ofAI (r : AIResult) (p : Provider) : AnalyzeResult :=
  { suggested_filename := r.suggested_filename, summary := r.summary,
    tags := r.tags, embedding := r.embedding, model_used := p }

/-- What one `AIService.analyze_file` call produces: its result, the
counters afterwards, and the usage-log entries appended (in order). -/
structure AnalyzeOutcome where
  result : AnalyzeResult
  counters : RateLimiter.Counters
  logs : List LogEntry
deriving DecidableEq, Repr

namespace AIService

/-- Model of `AIService.analyze_file`: pick the provider per call (fallback check,
then the bounded wait), increment the quota before the Gemini
sub-operations, fail over to Ollama on an unrecoverable Gemini error and
log both outcomes.  `ttl` is the RPM key's Redis TTL seen by
`wait_if_needed` (the call passes `max_wait_seconds=30`). -/
def analyze_file (genv : GeminiEnv) (oenv : OllamaEnv)
    (c : RateLimiter.Counters) (ttl : Int) (filename : String) : AnalyzeOutcome :=
  let use_ollama :=
    if RateLimiter.should_use_fallback c then true
    else !(RateLimiter.wait_if_needed c ttl 30)
  if use_ollama then
    let r := OllamaService.analyze_file oenv filename
    { result := AnalyzeResult.ofAI r .ollama, counters := c,
      logs := [⟨true, .ollama, none⟩] }
  else
    let c1 := RateLimiter.increment_usage c
    match genv.embeddingResp with
    | .ok emb =>
      { result :=
          { suggested_filename := generate_filename genv.filenameResp filename
            summary := summarize_content genv.summaryResp
            tags :=
              match genv.tagsResp with
              | some t => generate_tags t
              | none => fallbackTags
            embedding := emb
            model_used := .gemini }
        counters := c1
        logs := [⟨true, .gemini, none⟩] }
    | .error e =>
      let r := OllamaService.analyze_file oenv filename
      { result := AnalyzeResult.ofAI r .ollama, counters := c1,
        logs := [⟨false, .gemini, some e⟩, ⟨true, .ollama, none⟩] }

end AIService

/-! ### Data model (`app/models/database.py`, table `files`) -/

/-- The `processing_status` column's values. -/
inductive ProcStatus where
  | pending
  | processing
  | completed
  | failed
deriving DecidableEq, Repr

/-- One row of the `files` table.  Ids are abstracted to `Nat`, timestamps
to seconds (`Nat`), metadata dicts to key/value lists. -/
structure FileRecord where
  id : Nat
  user_id : Nat
  original_filename : String
  final_filename : String
  file_path : String
  file_size : Nat
  mime_type : String
  file_hash : String
  processing_status : ProcStatus
  error_message : Option String
  ai_generated_filename : Option String
  summary : Option String
  ai_tags : Option (List String)
  file_metadata : Option (List (String × String))
  thumbnail_path : Option String
  processed_at : Option Nat
  uploaded_at : Nat
  is_deleted : Bool
deriving DecidableEq, Repr

/-- Effect of `db.commit()` after mutating one loaded row: every row with that id is
replaced by the mutated copy. -/
def updateRecord (db : List FileRecord) (r : FileRecord) : List FileRecord :=
  db.map (fun x => if x.id = r.id then r else x)

/-- Query `SELECT ... WHERE id = fid` with `scalar_one_or_none` (first match;
ids are unique in the table). -/
def getRecord (db : List FileRecord) (fid : Nat) : Option FileRecord :=
  db.find? (fun x => x.id == fid)

/-! ### File-name utilities (`app/utils/file_utils.py`) -/

/-- Model of `get_file_extension`: `Path(filename).suffix.lower()` — the last
dot-suffix of the final path component, empty when there is no dot, the
dot is the component's first character, or the dot is its last. -/
def get_file_extension (filename : String) : String :=
  let base := (pyStrSplit filename "/").getLastD ""
  let cs := base.toList
  let afterDot := cs.reverse.takeWhile (fun c => c ≠ '.')
  if 0 < afterDot.length ∧ afterDot.length + 2 ≤ cs.length then
    pyToLower (String.mk ('.' :: afterDot.reverse))
  else ""

/-- Model of `is_allowed_file`: extension (dots stripped, lowercased) against the
comma-separated allow-list. -/
def is_allowed_file (filename : String) (allowed_extensions : String) : Bool :=
  let ext := String.mk ((get_file_extension filename).toList.dropWhile (fun c => c = '.'))
  let allowed := (pyStrSplit allowed_extensions ",").map (fun e => pyToLower (pyStrTrim e))
  allowed.contains (pyToLower ext)

/-- Model of `generate_unique_filename`: the deterministic storage path
`{user_id}/{hash[:8]}/{hash}{ext}`. -/
def generate_unique_filename (original_filename user_id file_hash : String) : String :=
  user_id ++ "/" ++ String.mk (file_hash.toList.take 8) ++ "/" ++ file_hash ++
    get_file_extension original_filename

/-- Model of `sanitize_filename`: basename, then keep only alphanumerics and
`._-`, replacing everything else (spaces included) with `_`. -/
def sanitize_filename (filename : String) : String :=
  let base := (pyStrSplit filename "/").getLastD ""
  String.mk (base.toList.map (fun c =>
    if c.isAlphanum ∨ c = '.' ∨ c = '_' ∨ c = '-' then c else '_'))

/-- Constant `settings.MAX_FILE_SIZE` (50 MB). -/
def MAX_FILE_SIZE : Nat := 52428800

/-- Constant `settings.ALLOWED_EXTENSIONS`. -/
def ALLOWED_EXTENSIONS : String := "pdf,doc,docx,txt,jpg,jpeg,png,gif,mp4,zip"

/-! ### Ingestion & dedup coordinator
(`app/api/endpoints/files.py`, `upload_file`) -/

/-- The three stores the endpoint touches: the `files` table, the MinIO
object store (path ↦ bytes), and the Celery queue of pending
`process_uploaded_file` tasks (file id, user id). -/
structure ServerState where
  db : List FileRecord
  store : List (String × List Nat)
  queue : List (Nat × Nat)
deriving DecidableEq, Repr

/-- The endpoint's observable reply. -/
inductive UploadOutcome where
  | httpError (code : Nat) (detail : String)
  | ok (file_id : Nat) (message : String) (status : String)
deriving DecidableEq, Repr

/-- The dedup query: first non-deleted row with this owner and
fingerprint (`scalar_one_or_none`; the pair is unique among non-deleted
rows). -/
def findDuplicate (db : List FileRecord) (user_id : Nat) (file_hash : String) :
    Option FileRecord :=
  db.find? (fun r => r.file_hash == file_hash && r.user_id == user_id && !r.is_deleted)

/-- The `FileModel(...)` row `upload_file` inserts for a genuinely new
fingerprint. -/
def freshRecord (filename : String) (file_data : List Nat) (mime_type : String)
    (user_id next_id now : Nat) (file_hash : String) : FileRecord :=
  { id := next_id, user_id := user_id, original_filename := filename,
    final_filename := sanitize_filename filename,
    file_path := generate_unique_filename filename (toString user_id) file_hash,
    file_size := file_data.length, mime_type := mime_type,
    file_hash := file_hash, processing_status := .pending,
    error_message := none, ai_generated_filename := none, summary := none,
    ai_tags := none, file_metadata := none, thumbnail_path := none,
    processed_at := none, uploaded_at := now, is_deleted := false }

/-- Model of `upload_file`: validate, fingerprint, dedup-check, store the object at
the deterministic path, insert the `pending` row, dispatch the enrichment
task.  `hashFn` models `calculate_hash` (SHA-256 hex digest), `mime_type`
models `get_mime_type`'s libmagic answer, `next_id` the id the insert
assigns, `now` the row's upload timestamp, and `enqueue_fails` whether
`process_uploaded_file.delay` raises. -/
def upload_file (hashFn : List Nat → String) (st : ServerState) (next_id : Nat)
    (filename : String) (file_data : List Nat) (mime_type : String)
    (user_id : Nat) (now : Nat) (enqueue_fails : Bool) :
    UploadOutcome × ServerState :=
  if filename = "" then (.httpError 400 "No filename provided", st)
  else if !is_allowed_file filename ALLOWED_EXTENSIONS then
    (.httpError 400 "File type not allowed", st)
  else if MAX_FILE_SIZE < file_data.length then
    (.httpError 400 "File too large", st)
  else
    let file_hash := hashFn file_data
    match findDuplicate st.db user_id file_hash with
    | some existing => (.ok existing.id "File already exists" "duplicate", st)
    | none =>
      let storage_path := generate_unique_filename filename (toString user_id) file_hash
      let st1 := { st with store := st.store ++ [(storage_path, file_data)] }
      let record := freshRecord filename file_data mime_type user_id next_id now file_hash
      if enqueue_fails then
        let record1 := { record with
          processing_status := ProcStatus.failed
          error_message := some "Failed to start processing" }
        (.ok next_id "File uploaded successfully" "failed",
         { st1 with db := st1.db ++ [record1] })
      else
        (.ok next_id "File uploaded successfully" "pending",
         { st1 with db := st1.db ++ [record],
                    queue := st1.queue ++ [(next_id, user_id)] })

/-! ### Enrichment worker (`app/workers/tasks/file_processing.py`) -/

/-- How a Celery task invocation ends: a returned result dict,
`raise self.retry(...)` (redelivery up to `max_retries`), or an uncaught
raise with no retry request. -/
inductive TaskOutcome where
  | success (file_id : Nat) (message : String)
  | retryRequested (error : String)
  | fatal (error : String)
deriving DecidableEq, Repr

/-- The payload mirrored into the vector index next to the embedding. -/
structure VPayload where
  filename : String
  summary : Option String
  tags : Option (List String)
  user_id : Nat
deriving DecidableEq, Repr

/-- A dispatched derived-artifact task. -/
inductive ThumbTask where
  | image (file_id : Nat)
  | pdf (file_id : Nat)
deriving DecidableEq, Repr

/-- The side effects of one `process_uploaded_file` run: AI-gateway calls
made (text, filename), vector upserts, thumbnail tasks dispatched, and
the successive `db.commit()` snapshots in order. -/
structure Effects where
  ai_calls : List (String × String)
  vector_upserts : List (Nat × List Int × VPayload)
  thumb_tasks : List ThumbTask
  commits : List (List FileRecord)
deriving DecidableEq, Repr

/-- No side effects. -/
def Effects.none : Effects := ⟨[], [], [], []⟩

/-- The collaborators one worker run consults.
Modelled from the spec: `storage_service.download_file_sync` (the object
store's `get`; its definition is not among the provided sources, only its
callers) returns the object's bytes or fails, and
`vector_service.add_vector_sync` (the vector index's `upsert`; likewise
absent) either succeeds or raises — `vector_ok` is that outcome.
`extract_text` and `metadata` stand for the delegated
`TextExtractor.extract_text` and
`metadata_extractor.extract_metadata_from_mime_type` codecs; `metadata =
none` covers both an extractor error and a raised exception (either way
the row's metadata field is left alone).  `ai` is the
`generate_ai_metadata_sync` bridge to `AIService.analyze_file`
(`.error e` models a raised exception).  `now` is `datetime.utcnow()`. -/
structure WorkerEnv where
  download : String → Option (List Nat)
  extract_text : List Nat → String → String → String
  metadata : Option (List (String × String))
  ai : String → String → Except String AIResult
  vector_ok : Bool
  now : Nat

/-- Model of `process_uploaded_file`: load the record (absence raises and the
generic handler requests a queue retry), commit `processing`, download,
extract text and metadata, short-circuit to `completed` on empty text,
otherwise run the AI gateway, persist its outputs, upsert the vector,
commit, and dispatch a thumbnail task for image/PDF mime types.  Any
failure after load marks the row `failed` (committing it) and requests a
queue retry. -/
def process_uploaded_file (env : WorkerEnv) (db : List FileRecord)
    (file_id user_id : Nat) : TaskOutcome × List FileRecord × Effects :=
  match db.find? (fun r => r.id == file_id && r.user_id == user_id) with
  | none =>
    (.retryRequested ("File not found: " ++ toString file_id), db, Effects.none)
  | some r0 =>
    let r1 := { r0 with processing_status := ProcStatus.processing }
    let db1 := updateRecord db r1
    match env.download r1.file_path with
    | none =>
      let r2 := { r1 with
        processing_status := ProcStatus.failed
        error_message := some "Failed to download file from storage" }
      let db2 := updateRecord db1 r2
      (.retryRequested "Failed to download file from storage", db2, ⟨[], [], [], [db1, db2]⟩)
    | some file_data =>
      if file_data.isEmpty then
        let r2 := { r1 with
          processing_status := ProcStatus.failed
          error_message := some "Failed to download file from storage" }
        let db2 := updateRecord db1 r2
        (.retryRequested "Failed to download file from storage", db2, ⟨[], [], [], [db1, db2]⟩)
      else
        let text := env.extract_text file_data r1.mime_type r1.original_filename
        let r2 :=
          match env.metadata with
          | some m => { r1 with file_metadata := some m }
          | none => r1
        if text = "" then
          let r3 := { r2 with
            processing_status := ProcStatus.completed
            processed_at := some env.now }
          let db2 := updateRecord db1 r3
          (.success file_id "No text content to process", db2, ⟨[], [], [], [db1, db2]⟩)
        else
          match env.ai text r1.original_filename with
          | .error e =>
            let r3 := { r2 with
              processing_status := ProcStatus.failed
              error_message := some e }
            let db2 := updateRecord db1 r3
            (.retryRequested e, db2,
             ⟨[(text, r1.original_filename)], [], [], [db1, db2]⟩)
          | .ok ai =>
            let r3 := { r2 with
              ai_generated_filename := some ai.suggested_filename
              final_filename := ai.suggested_filename
              summary := some ai.summary
              ai_tags := some (ai.tags.map TagObj.tag)
              processing_status := ProcStatus.completed
              processed_at := some env.now }
            if env.vector_ok then
              let db2 := updateRecord db1 r3
              let thumbs :=
                if pyStartsWith r3.mime_type "image/" then [ThumbTask.image file_id]
                else if r3.mime_type = "application/pdf" then [ThumbTask.pdf file_id]
                else []
              (.success file_id "completed", db2,
               ⟨[(text, r1.original_filename)],
                [(file_id, ai.embedding,
                  ⟨r3.final_filename, r3.summary, r3.ai_tags, user_id⟩)],
                thumbs, [db1, db2]⟩)
            else
              let r4 := { r3 with
                processing_status := ProcStatus.failed
                error_message := some "vector upsert failed" }
              let db2 := updateRecord db1 r4
              (.retryRequested "vector upsert failed", db2,
               ⟨[(text, r1.original_filename)], [], [], [db1, db2]⟩)

/-- Sweep `cleanup_old_tasks`, the hourly Celery Beat task: select the rows
with `processing_status = 'processing'` and `uploaded_at` more than one
hour old (`uploaded_at < utcnow() - timedelta(hours=1)`, i.e.
`uploaded_at + 3600 < now`), set each to `failed` with the timeout
message, and commit. -/
def cleanup_old_tasks (now : Nat) (db : List FileRecord) : List FileRecord :=
  db.map (fun r =>
    if r.processing_status = ProcStatus.processing ∧ r.uploaded_at + 3600 < now then
      { r with
        processing_status := ProcStatus.failed
        error_message := some "Processing timeout" }
    else r)

/-! ### Thumbnail tasks (`app/workers/tasks/thumbnail.py`) -/

/-- How one thumbnail task invocation ends. -/
inductive ThumbOutcome where
  | success (file_id : Nat) (thumbnail_path : String)
  | skipped (file_id : Nat) (message : String)
  | retryRequested (error : String)
deriving DecidableEq, Repr

/-- Path rule `ThumbnailGenerator.get_thumbnail_path`: `thumbnails/{file_id}.jpg`,
a function of the file id alone. -/
def get_thumbnail_path (file_id : Nat) : String :=
  "thumbnails/" ++ toString file_id ++ ".jpg"

/-- The collaborators of one thumbnail task run.
Modelled from the spec: `storage_service.download_file_sync` and
`storage_service.upload_file_sync` (object-store `get`/`put`; absent from
the provided sources) — `download` yields the original bytes or fails
(`none` models a raise), `upload_ok` whether the `put` succeeds.
`generate` is `ThumbnailGenerator.generate_image_thumbnail` /
`generate_pdf_thumbnail` (PIL/pdf2image): thumbnail bytes, or `none` on
failure. -/
structure ThumbEnv where
  download : String → Option (List Nat)
  generate : List Nat → Option (List Nat)
  upload_ok : Bool

/-- Model of `generate_thumbnail` (image files): load the record, skip non-image
mime types, decode-resize-reencode, upload at the id-deterministic path,
persist `thumbnail_path`, commit.  Any failure requests a queue retry
(`max_retries=3`) with the row untouched. -/
def generate_thumbnail (env : ThumbEnv) (db : List FileRecord) (file_id : Nat) :
    ThumbOutcome × List FileRecord × List (String × List Nat) :=
  match getRecord db file_id with
  | none => (.retryRequested ("File not found: " ++ toString file_id), db, [])
  | some r =>
    if !pyStartsWith r.mime_type "image/" then
      (.skipped file_id "Not an image file", db, [])
    else
      match env.download r.file_path with
      | none => (.retryRequested "download failed", db, [])
      | some file_data =>
        match env.generate file_data with
        | none => (.retryRequested "Failed to generate thumbnail", db, [])
        | some thumb =>
          let path := get_thumbnail_path file_id
          if env.upload_ok then
            let r1 := { r with thumbnail_path := some path }
            (.success file_id path, updateRecord db r1, [(path, thumb)])
          else
            (.retryRequested "upload failed", db, [])

/-- Model of `generate_pdf_thumbnail` (PDF files): identical shape, but skips
non-PDF mime types and rasterizes the first page. -/
def generate_pdf_thumbnail (env : ThumbEnv) (db : List FileRecord) (file_id : Nat) :
    ThumbOutcome × List FileRecord × List (String × List Nat) :=
  match getRecord db file_id with
  | none => (.retryRequested ("File not found: " ++ toString file_id), db, [])
  | some r =>
    if r.mime_type ≠ "application/pdf" then
      (.skipped file_id "Not a PDF file", db, [])
    else
      match env.download r.file_path with
      | none => (.retryRequested "download failed", db, [])
      | some file_data =>
        match env.generate file_data with
        | none => (.retryRequested "Failed to generate PDF thumbnail", db, [])
        | some thumb =>
          let path := get_thumbnail_path file_id
          if env.upload_ok then
            let r1 := { r with thumbnail_path := some path }
            (.success file_id path, updateRecord db r1, [(path, thumb)])
          else
            (.retryRequested "upload failed", db, [])

/-! ### Concrete scenario instances used by the theorems below -/

/-- A worker environment in which the stored object is one byte, the
extractor finds text, the gateway answers, and the vector upsert
succeeds; the worker's clock reads 99. -/
def envRerun : WorkerEnv :=
  { download := fun _ => some [1]
    extract_text := fun _ _ _ => "hello world"
    metadata := none
    ai := fun _ _ => .ok ⟨"new_name", "new summary", [⟨"report", "0.9"⟩], [1, 2]⟩
    vector_ok := true
    now := 99 }

/-- A record already in the terminal `completed` state, with
previously-persisted AI fields. -/
def recDone : FileRecord :=
  { id := 1, user_id := 7, original_filename := "a.txt",
    final_filename := "old_name", file_path := "p", file_size := 3,
    mime_type := "text/plain", file_hash := "h",
    processing_status := .completed, error_message := none,
    ai_generated_filename := some "old_name", summary := some "old summary",
    ai_tags := some ["old"], file_metadata := none, thumbnail_path := none,
    processed_at := some 5, uploaded_at := 0, is_deleted := false }

/-- A worker environment whose object-store download fails; the worker's
clock reads 7000. -/
def envCrash : WorkerEnv :=
  { download := fun _ => none
    extract_text := fun _ _ _ => ""
    metadata := none
    ai := fun _ _ => .error "unused"
    vector_ok := true
    now := 7000 }

/-- A record uploaded at time 0, still `pending`. -/
def recOld : FileRecord :=
  { id := 1, user_id := 1, original_filename := "a.txt",
    final_filename := "a.txt", file_path := "p", file_size := 3,
    mime_type := "text/plain", file_hash := "h",
    processing_status := .pending, error_message := none,
    ai_generated_filename := none, summary := none, ai_tags := none,
    file_metadata := none, thumbnail_path := none, processed_at := none,
    uploaded_at := 0, is_deleted := false }

/-- Row `recOld` as committed by the worker's first `db.commit()`. -/
def recOldProcessing : FileRecord :=
  { recOld with processing_status := ProcStatus.processing }

/-- A worker environment whose extractor finds no text in the stored
one-byte object; the worker's clock reads 42. -/
def envEmptyText : WorkerEnv :=
  { download := fun _ => some [1]
    extract_text := fun _ _ _ => ""
    metadata := none
    ai := fun _ _ => .error "unused"
    vector_ok := true
    now := 42 }

/-- A Gemini-call outcome whose embedding sub-operation fails
unrecoverably. -/
def genvBoom : GeminiEnv :=
  { filenameResp := some "gem_name", summaryResp := some "gem summary",
    tagsResp := none, embeddingResp := .error "boom" }

/-- An Ollama-call outcome in which every sub-operation answers. -/
def oenvOk : OllamaEnv :=
  { filenameResp := some "oll_name", summaryResp := some "oll summary",
    tagsResp := some "[\x7b\"tag\": \"report\", \"confidence\": 0.8\x7d]",
    embeddingResp := some [3, 4] }

/-- A Gemini tag response wrapped in explanatory prose with no code
fence, containing one well-formed array payload. -/
def proseResp : String :=
  "Here are the tags: [\x7b\"tag\": \"education\", \"confidence\": 0.95\x7d]"

/-- SHA-256 stand-in for the witness scenarios: a deterministic
fingerprint of the byte list. -/
def hashW (bs : List Nat) : String :=
  "sha" ++ toString (bs.foldl (fun a b => a * 257 + b + 1) 7)

/-- A fresh-upload record as `upload_file` inserts it, for the witness
scenarios: owner 7 uploads bytes `[1, 2, 3]` named `a.txt` at time 50. -/
def recUpW : FileRecord :=
  { id := 11, user_id := 7, original_filename := "a.txt",
    final_filename := "a.txt",
    file_path := generate_unique_filename "a.txt" "7" (hashW [1, 2, 3]),
    file_size := 3, mime_type := "text/plain", file_hash := hashW [1, 2, 3],
    processing_status := .pending, error_message := none,
    ai_generated_filename := none, summary := none, ai_tags := none,
    file_metadata := none, thumbnail_path := none, processed_at := none,
    uploaded_at := 50, is_deleted := false }

/-- A `completed` image record awaiting a thumbnail. -/
def recImg : FileRecord :=
  { id := 3, user_id := 7, original_filename := "pic.png",
    final_filename := "pic.png", file_path := "q", file_size := 4,
    mime_type := "image/png", file_hash := "h2",
    processing_status := .completed, error_message := none,
    ai_generated_filename := some "pic.png", summary := some "an image",
    ai_tags := some ["image"], file_metadata := none, thumbnail_path := none,
    processed_at := some 60, uploaded_at := 55, is_deleted := false }

/-- A thumbnail environment in which everything succeeds. -/
def tenvOk : ThumbEnv :=
  { download := fun _ => some [9, 9], generate := fun _ => some [5], upload_ok := true }

/-! ### Helper lemmas -/

/-- A passing `check_rate_limit` returns exactly `(True, None)`. -/
lemma check_rate_limit_eq_of_fst_true {c : RateLimiter.Counters}
    (h : (RateLimiter.check_rate_limit c).1 = true) :
    RateLimiter.check_rate_limit c = (true, none) := by
  by_cases h1 : 0 < c.rpmCount ∧ RateLimiter.rpm_limit ≤ c.rpmCount
  · simp [RateLimiter.check_rate_limit, h1] at h
  · by_cases h2 : 0 < c.dailyCount ∧ RateLimiter.daily_limit ≤ c.dailyCount
    · simp [RateLimiter.check_rate_limit, h1, h2] at h
    · simp [RateLimiter.check_rate_limit, h1, h2]

/-- An exhausted RPM counter makes `check_rate_limit` report the RPM
reason (the RPM check precedes the daily one). -/
lemma check_rate_limit_rpm {c : RateLimiter.Counters}
    (h : RateLimiter.rpm_limit ≤ c.rpmCount) :
    RateLimiter.check_rate_limit c = (false, some .rate_limit_rpm) := by
  have h15 : 15 ≤ c.rpmCount := h
  unfold RateLimiter.check_rate_limit
  rw [if_pos]
  exact ⟨by omega, h⟩

/-- If a pattern does not occur in a text, no extension of the pattern
does. -/
lemma hasSub_append_false {cs s t : List Char} (h : hasSub cs s = false) :
    hasSub cs (s ++ t) = false := by
  induction cs with
  | nil =>
    cases s with
    | nil => simp [hasSub] at h
    | cons a s' => simp [hasSub]
  | cons c tl ih =>
    simp only [hasSub, Bool.or_eq_false_iff] at h ⊢
    refine ⟨?_, ih h.2⟩
    by_contra hp
    rw [Bool.not_eq_false, List.isPrefixOf_iff_prefix] at hp
    have hs : s <+: c :: tl := (List.prefix_append s t).trans hp
    rw [← List.isPrefixOf_iff_prefix] at hs
    simp [h.1] at hs

/-- Committing the same loaded row twice keeps only the second commit. -/
lemma updateRecord_updateRecord (db : List FileRecord) (r1 r2 : FileRecord)
    (h : r1.id = r2.id) :
    updateRecord (updateRecord db r1) r2 = updateRecord db r2 := by
  unfold updateRecord
  rw [List.map_map]
  apply List.map_congr_left
  intro x _
  by_cases hx : x.id = r1.id
  · simp [Function.comp, hx, h ▸ hx, h]
  · simp [Function.comp, hx]

/-- Index search `findIdx` skips a first segment the predicate rejects throughout. -/
lemma findIdx_append_of_none {α : Type} (p : α → Bool) {l₁ : List α} (l₂ : List α)
    (h : ∀ a ∈ l₁, p a = false) :
    (l₁ ++ l₂).findIdx p = l₁.length + l₂.findIdx p := by
  induction l₁ with
  | nil => simp
  | cons a tl ih =>
    simp only [List.cons_append, List.findIdx_cons, h a (by simp), cond_false]
    rw [ih (fun x hx => h x (by simp [hx]))]
    simp only [List.length_cons]
    omega

/-- The Python slice `t[t.index("["):t.rindex("]") + 1]` recovers a
bracket-delimited payload out of a prose wrapper: if the prefix has no
`[` and the suffix no `]`, the slice is exactly the payload. -/
lemma sliceBrackets_decomp (p arr q : List Char)
    (hp : '[' ∉ p) (hq : ']' ∉ q)
    (h1 : arr.head? = some '[') (h2 : arr.getLast? = some ']') :
    OllamaService.sliceBrackets (p ++ arr ++ q) = arr := by
  have harr : arr ≠ [] := by intro h; simp [h] at h1
  have hi : (p ++ arr ++ q).findIdx (fun c => c = '[') = p.length := by
    rw [List.append_assoc,
      findIdx_append_of_none _ _ (fun a ha => by
        simp only [decide_eq_false_iff_not]
        intro hEq
        exact hp (hEq ▸ ha))]
    obtain ⟨b, arr', rfl⟩ := List.exists_cons_of_ne_nil harr
    simp only [List.head?_cons, Option.some.injEq] at h1
    subst h1
    simp [List.findIdx_cons]
  have hjr : (p ++ arr ++ q).reverse.findIdx (fun c => c = ']') = q.length := by
    have hrev : (p ++ arr ++ q).reverse = q.reverse ++ (arr.reverse ++ p.reverse) := by
      simp [List.reverse_append]
    rw [hrev,
      findIdx_append_of_none _ _ (fun a ha => by
        simp only [decide_eq_false_iff_not]
        intro hEq
        exact hq (hEq ▸ (List.mem_reverse.mp ha)))]
    have hrh : arr.reverse.head? = some ']' := by rw [List.head?_reverse]; exact h2
    obtain ⟨b, rest, hbrest⟩ := List.exists_cons_of_ne_nil
      (by simpa using harr : arr.reverse ≠ [])
    rw [hbrest] at hrh
    simp only [List.head?_cons, Option.some.injEq] at hrh
    subst hrh
    rw [hbrest]
    simp [List.findIdx_cons]
  have hL : (p ++ arr ++ q).length = p.length + arr.length + q.length := by
    simp
    omega
  have hal : 0 < arr.length := List.length_pos.mpr harr
  unfold OllamaService.sliceBrackets
  rw [hi, hjr]
  show List.drop p.length
    (List.take ((p ++ arr ++ q).length - 1 - q.length + 1) (p ++ arr ++ q)) = arr
  rw [show (p ++ arr ++ q).length - 1 - q.length + 1 = (p ++ arr).length from by
    simp only [hL, List.length_append]
    omega]
  rw [List.take_left, List.drop_left]

/-! ### Claims -/

/-- C1: a valid upload whose (owner, fingerprint) matches a non-deleted
existing row returns that row's id as a `duplicate` and leaves all three
stores untouched; and for a genuinely new fingerprint the first upload
alone writes the object, inserts the row and enqueues the task, while an
identical second upload returns the first's id as a `duplicate` and
changes nothing. -/
theorem C1_upload_dedup (hashFn : List Nat → String) (st : ServerState)
    (next_id next_id2 : Nat) (filename : String) (file_data : List Nat)
    (mime mime2 : String) (user_id now now2 : Nat) (ef ef2 : Bool)
    (hname : filename ≠ "")
    (hext : is_allowed_file filename ALLOWED_EXTENSIONS = true)
    (hsize : file_data.length ≤ MAX_FILE_SIZE) :
    (∀ ex, findDuplicate st.db user_id (hashFn file_data) = some ex →
       upload_file hashFn st next_id filename file_data mime user_id now ef =
         (.ok ex.id "File already exists" "duplicate", st)) ∧
    (findDuplicate st.db user_id (hashFn file_data) = none →
       upload_file hashFn st next_id filename file_data mime user_id now false =
         (.ok next_id "File uploaded successfully" "pending",
          { db := st.db ++
              [freshRecord filename file_data mime user_id next_id now (hashFn file_data)]
            store := st.store ++
              [(generate_unique_filename filename (toString user_id) (hashFn file_data),
                file_data)]
            queue := st.queue ++ [(next_id, user_id)] }) ∧
       upload_file hashFn
         (upload_file hashFn st next_id filename file_data mime user_id now false).2
         next_id2 filename file_data mime2 user_id now2 ef2 =
         (.ok next_id "File already exists" "duplicate",
          (upload_file hashFn st next_id filename file_data mime user_id now false).2)) := by
  have h2 : (!is_allowed_file filename ALLOWED_EXTENSIONS) = false := by simp [hext]
  have h3 : ¬(MAX_FILE_SIZE < file_data.length) := Nat.not_lt.mpr hsize
  constructor
  · intro ex hdup
    simp [upload_file, hname, h2, h3, hdup]
  · intro hnone
    have hfirst : upload_file hashFn st next_id filename file_data mime user_id now false =
        (.ok next_id "File uploaded successfully" "pending",
         { db := st.db ++
             [freshRecord filename file_data mime user_id next_id now (hashFn file_data)]
           store := st.store ++
             [(generate_unique_filename filename (toString user_id) (hashFn file_data),
               file_data)]
           queue := st.queue ++ [(next_id, user_id)] }) := by
      simp [upload_file, hname, h2, h3, hnone]
    refine ⟨hfirst, ?_⟩
    have hdup2 : findDuplicate
        (st.db ++ [freshRecord filename file_data mime user_id next_id now (hashFn file_data)])
        user_id (hashFn file_data) =
        some (freshRecord filename file_data mime user_id next_id now (hashFn file_data)) := by
      unfold findDuplicate at hnone ⊢
      rw [List.find?_append, hnone]
      simp [freshRecord]
    rw [hfirst]
    have hid : (freshRecord filename file_data mime user_id next_id now
        (hashFn file_data)).id = next_id := rfl
    simp [upload_file, hname, h2, h3, hdup2, hid]

/-- Witness for C1 at concrete inputs: owner 7 uploads `a.txt` with bytes
`[1, 2, 3]` twice into an empty system. -/
theorem C1_upload_dedup_witness :
    ("a.txt" : String) ≠ "" ∧
    is_allowed_file "a.txt" ALLOWED_EXTENSIONS = true ∧
    ([1, 2, 3] : List Nat).length ≤ MAX_FILE_SIZE ∧
    (findDuplicate ([] : List FileRecord) 7 (hashW [1, 2, 3]) = none →
       upload_file hashW ⟨[], [], []⟩ 11 "a.txt" [1, 2, 3] "text/plain" 7 50 false =
         (.ok 11 "File uploaded successfully" "pending",
          { db := [] ++ [freshRecord "a.txt" [1, 2, 3] "text/plain" 7 11 50 (hashW [1, 2, 3])]
            store := [] ++
              [(generate_unique_filename "a.txt" (toString 7) (hashW [1, 2, 3]), [1, 2, 3])]
            queue := [] ++ [(11, 7)] }) ∧
       upload_file hashW
         (upload_file hashW ⟨[], [], []⟩ 11 "a.txt" [1, 2, 3] "text/plain" 7 50 false).2
         12 "a.txt" [1, 2, 3] "image/png" 7 60 true =
         (.ok 11 "File already exists" "duplicate",
          (upload_file hashW ⟨[], [], []⟩ 11 "a.txt" [1, 2, 3] "text/plain" 7 50 false).2)) :=
  ⟨by decide, by decide, by decide,
   (C1_upload_dedup hashW ⟨[], [], []⟩ 11 12 "a.txt" [1, 2, 3] "text/plain" "image/png"
      7 50 60 false true (by decide) (by decide) (by decide)).2⟩

/-- C10: when a genuinely new upload's background-task dispatch raises,
the endpoint does not surface the error: it still answers with the new
file id, the row is committed as `failed` with an error message (never
left `pending` with no queued task), and the task queue is untouched. -/
theorem C10_enqueue_failure (hashFn : List Nat → String) (st : ServerState)
    (next_id : Nat) (filename : String) (file_data : List Nat)
    (mime : String) (user_id now : Nat)
    (hname : filename ≠ "")
    (hext : is_allowed_file filename ALLOWED_EXTENSIONS = true)
    (hsize : file_data.length ≤ MAX_FILE_SIZE)
    (hnone : findDuplicate st.db user_id (hashFn file_data) = none) :
    upload_file hashFn st next_id filename file_data mime user_id now true =
      (.ok next_id "File uploaded successfully" "failed",
       { db := st.db ++
           [{ freshRecord filename file_data mime user_id next_id now (hashFn file_data) with
              processing_status := ProcStatus.failed
              error_message := some "Failed to start processing" }]
         store := st.store ++
           [(generate_unique_filename filename (toString user_id) (hashFn file_data),
             file_data)]
         queue := st.queue }) := by
  have h2 : (!is_allowed_file filename ALLOWED_EXTENSIONS) = false := by simp [hext]
  have h3 : ¬(MAX_FILE_SIZE < file_data.length) := Nat.not_lt.mpr hsize
  simp [upload_file, hname, h2, h3, hnone]

/-- Witness for C10 at a concrete input: the dispatch of the enrichment
task raises on a fresh upload into an empty system. -/
theorem C10_enqueue_failure_witness :
    upload_file hashW ⟨[], [], []⟩ 11 "a.txt" [1, 2, 3] "text/plain" 7 50 true =
      (.ok 11 "File uploaded successfully" "failed",
       { db := [] ++
           [{ freshRecord "a.txt" [1, 2, 3] "text/plain" 7 11 50 (hashW [1, 2, 3]) with
              processing_status := ProcStatus.failed
              error_message := some "Failed to start processing" }]
         store := [] ++
           [(generate_unique_filename "a.txt" (toString 7) (hashW [1, 2, 3]), [1, 2, 3])]
         queue := [] }) :=
  C10_enqueue_failure hashW ⟨[], [], []⟩ 11 "a.txt" [1, 2, 3] "text/plain" 7 50
    (by decide) (by decide) (by decide) (by decide)

/-- C2 counterexample: the claim says re-running the transition
procedure on a terminal record is a no-op behind a "still actionable"
guard.  Concretely, on a `completed` record the procedure calls the AI
gateway again, re-upserts the vector, overwrites the AI fields, and
commits an intermediate `processing` state — no guard exists in
`process_uploaded_file`. -/
theorem C2_counterexample :
    (process_uploaded_file envRerun [recDone] 1 7).1 = .success 1 "completed" ∧
    (process_uploaded_file envRerun [recDone] 1 7).2.2.ai_calls =
      [("hello world", "a.txt")] ∧
    (process_uploaded_file envRerun [recDone] 1 7).2.2.vector_upserts ≠ [] ∧
    (process_uploaded_file envRerun [recDone] 1 7).2.1 ≠ [recDone] ∧
    (process_uploaded_file envRerun [recDone] 1 7).2.2.commits.head? =
      some [{ recDone with processing_status := ProcStatus.processing }] := by
  refine ⟨by decide, by decide, by decide, by decide, by decide⟩

/-- C2 as amended: `process_uploaded_file` has no terminal-state guard —
re-delivered on a record already `completed` or `failed`, it re-runs the
whole pipeline: it commits a `processing` state, calls the AI gateway
once, upserts the vector, and overwrites the record's AI fields and
`processed_at`. -/
theorem C2_amended_no_terminal_guard (env : WorkerEnv) (db : List FileRecord)
    (file_id user_id : Nat) (r0 : FileRecord) (file_data : List Nat) (ai : AIResult)
    (hfind : db.find? (fun r => r.id == file_id && r.user_id == user_id) = some r0)
    (hterm : r0.processing_status = ProcStatus.completed ∨
      r0.processing_status = ProcStatus.failed)
    (hdl : env.download r0.file_path = some file_data)
    (hne : file_data.isEmpty = false)
    (htext : env.extract_text file_data r0.mime_type r0.original_filename ≠ "")
    (hai : env.ai (env.extract_text file_data r0.mime_type r0.original_filename)
      r0.original_filename = .ok ai)
    (hvec : env.vector_ok = true) :
    (process_uploaded_file env db file_id user_id).1 = .success file_id "completed" ∧
    (process_uploaded_file env db file_id user_id).2.2.ai_calls =
      [(env.extract_text file_data r0.mime_type r0.original_filename,
        r0.original_filename)] ∧
    (process_uploaded_file env db file_id user_id).2.2.vector_upserts ≠ [] ∧
    (∃ rP, (process_uploaded_file env db file_id user_id).2.2.commits.head? =
       some (updateRecord db rP) ∧ rP.processing_status = ProcStatus.processing) ∧
    (∃ rF, (process_uploaded_file env db file_id user_id).2.1 = updateRecord db rF ∧
       rF.processing_status = ProcStatus.completed ∧
       rF.summary = some ai.summary ∧
       rF.ai_generated_filename = some ai.suggested_filename ∧
       rF.processed_at = some env.now) := by
  cases hm : env.metadata with
  | none =>
    refine ⟨?_, ?_, ?_, ?_, ?_⟩ <;>
      simp [process_uploaded_file, hfind, hdl, hne, htext, hai, hvec, hm]
    · exact ⟨_, rfl, rfl⟩
    · exact ⟨_, updateRecord_updateRecord db _ _ rfl, rfl, rfl, rfl, rfl⟩
  | some m =>
    refine ⟨?_, ?_, ?_, ?_, ?_⟩ <;>
      simp [process_uploaded_file, hfind, hdl, hne, htext, hai, hvec, hm]
    · exact ⟨_, rfl, rfl⟩
    · exact ⟨_, updateRecord_updateRecord db _ _ rfl, rfl, rfl, rfl, rfl⟩

/-- Witness for the amended C2 at a concrete input: the `completed`
record `recDone` is re-processed whole by a redelivered task. -/
theorem C2_amended_no_terminal_guard_witness :
    (process_uploaded_file envRerun [recDone] 1 7).1 = .success 1 "completed" ∧
    (process_uploaded_file envRerun [recDone] 1 7).2.2.ai_calls =
      [(envRerun.extract_text [1] recDone.mime_type recDone.original_filename,
        recDone.original_filename)] ∧
    (process_uploaded_file envRerun [recDone] 1 7).2.2.vector_upserts ≠ [] ∧
    (∃ rP, (process_uploaded_file envRerun [recDone] 1 7).2.2.commits.head? =
       some (updateRecord [recDone] rP) ∧ rP.processing_status = ProcStatus.processing) ∧
    (∃ rF, (process_uploaded_file envRerun [recDone] 1 7).2.1 = updateRecord [recDone] rF ∧
       rF.processing_status = ProcStatus.completed ∧
       rF.summary = some "new summary" ∧
       rF.ai_generated_filename = some "new_name" ∧
       rF.processed_at = some envRerun.now) :=
  C2_amended_no_terminal_guard envRerun [recDone] 1 7 recDone [1]
    ⟨"new_name", "new summary", [⟨"report", "0.9"⟩], [1, 2]⟩
    (by decide) (Or.inl (by decide)) rfl (by decide) (by decide) rfl rfl

/-- C7: a file whose extracted text is empty transitions directly to
`completed`: no AI-gateway call, no vector upsert, the processed
timestamp set, and summary and tags still null. -/
theorem C7_empty_text_completes (env : WorkerEnv) (db : List FileRecord)
    (file_id user_id : Nat) (r0 : FileRecord) (file_data : List Nat)
    (hfind : db.find? (fun r => r.id == file_id && r.user_id == user_id) = some r0)
    (hdl : env.download r0.file_path = some file_data)
    (hne : file_data.isEmpty = false)
    (htext : env.extract_text file_data r0.mime_type r0.original_filename = "")
    (hsum : r0.summary = none) (htags : r0.ai_tags = none) :
    (process_uploaded_file env db file_id user_id).1 =
      .success file_id "No text content to process" ∧
    (process_uploaded_file env db file_id user_id).2.2.ai_calls = [] ∧
    (process_uploaded_file env db file_id user_id).2.2.vector_upserts = [] ∧
    (∃ rF, (process_uploaded_file env db file_id user_id).2.1 = updateRecord db rF ∧
       rF.processing_status = ProcStatus.completed ∧
       rF.processed_at = some env.now ∧
       rF.summary = none ∧ rF.ai_tags = none) := by
  cases hm : env.metadata with
  | none =>
    refine ⟨?_, ?_, ?_, ?_⟩ <;>
      simp [process_uploaded_file, hfind, hdl, hne, htext, hm]
    exact ⟨_, updateRecord_updateRecord db _ _ rfl, rfl, rfl, hsum, htags⟩
  | some m =>
    refine ⟨?_, ?_, ?_, ?_⟩ <;>
      simp [process_uploaded_file, hfind, hdl, hne, htext, hm]
    exact ⟨_, updateRecord_updateRecord db _ _ rfl, rfl, rfl, hsum, htags⟩

/-- Witness for C7 at a concrete input: a one-byte decorative image
with no extractable text. -/
theorem C7_empty_text_completes_witness :
    (process_uploaded_file envEmptyText [recOld] 1 1).1 =
      .success 1 "No text content to process" ∧
    (process_uploaded_file envEmptyText [recOld] 1 1).2.2.ai_calls = [] ∧
    (process_uploaded_file envEmptyText [recOld] 1 1).2.2.vector_upserts = [] ∧
    (∃ rF, (process_uploaded_file envEmptyText [recOld] 1 1).2.1 =
        updateRecord [recOld] rF ∧
       rF.processing_status = ProcStatus.completed ∧
       rF.processed_at = some envEmptyText.now ∧
       rF.summary = none ∧ rF.ai_tags = none) :=
  C7_empty_text_completes envEmptyText [recOld] 1 1 recOld [1]
    (by decide) rfl (by decide) rfl rfl rfl

/-- C8 counterexample: the claim says a task whose record does not exist
fails fatally with no retry; in the code the raised `ValueError` is
caught by the generic handler, which requests a queue retry
(`self.retry`, `max_retries=3`). -/
theorem C8_counterexample :
    process_uploaded_file envCrash [] 1 1 =
      (.retryRequested "File not found: 1", [], Effects.none) ∧
    (TaskOutcome.retryRequested "File not found: 1" ≠
      TaskOutcome.fatal "File not found: 1") := by
  refine ⟨by decide, by decide⟩

/-- C8 as amended: when the referenced record does not exist, the task
raises and the generic handler requests a bounded queue retry — the
database and all side-effect channels are untouched, but the failure is
not fatal. -/
theorem C8_amended_missing_record_retries (env : WorkerEnv) (db : List FileRecord)
    (file_id user_id : Nat)
    (hnone : db.find? (fun r => r.id == file_id && r.user_id == user_id) = none) :
    process_uploaded_file env db file_id user_id =
      (.retryRequested ("File not found: " ++ toString file_id), db, Effects.none) := by
  simp [process_uploaded_file, hnone]

/-- Witness for the amended C8 at a concrete input: an empty table. -/
theorem C8_amended_missing_record_retries_witness :
    process_uploaded_file envRerun [] 5 9 =
      (.retryRequested ("File not found: " ++ toString 5), [], Effects.none) :=
  C8_amended_missing_record_retries envRerun [] 5 9 (by decide)

/-- C5 counterexample: the claim says the sweep fails exactly the
records that have been in `processing` longer than the one-hour timeout.
The code keys on `uploaded_at` instead: here a worker (clock 7000)
commits the `processing` state for a record uploaded at time 0, and a
sweep pass at time 7200 — 200 seconds later, far less than the 3600
second timeout — force-fails it anyway. -/
theorem C5_counterexample :
    (process_uploaded_file envCrash [recOld] 1 1).2.2.commits.head? =
      some [recOldProcessing] ∧
    recOldProcessing.processing_status = ProcStatus.processing ∧
    envCrash.now = 7000 ∧
    7200 - envCrash.now < 3600 ∧
    recOldProcessing.uploaded_at = 0 ∧
    cleanup_old_tasks 7200 [recOldProcessing] =
      [{ recOldProcessing with
          processing_status := ProcStatus.failed
          error_message := some "Processing timeout" }] := by
  refine ⟨by decide, by decide, by decide, by decide, by decide, by decide⟩

/-- C5 as amended: each sweep pass transitions to `failed` with the
timeout message exactly those records whose status is `processing` and
whose upload time is more than one hour before the pass, exactly once
per such record per pass (positionally, every row is transformed once
by the row-map); all other records are unchanged.  Time spent in
`processing` is not consulted — the record stores no
processing-entry timestamp. -/
theorem C5_amended_sweep_by_upload_age (now : Nat) (db : List FileRecord) (i : Nat) :
    (cleanup_old_tasks now db).length = db.length ∧
    (cleanup_old_tasks now db)[i]? = (db[i]?).map (fun r =>
      if r.processing_status = ProcStatus.processing ∧ r.uploaded_at + 3600 < now then
        { r with
          processing_status := ProcStatus.failed
          error_message := some "Processing timeout" }
      else r) := by
  refine ⟨by simp [cleanup_old_tasks], ?_⟩
  simp [cleanup_old_tasks, List.getElem?_map]

/-- C9: the thumbnail tasks mutate only the record's `thumbnail_path`.
On success the path is `thumbnails/{file_id}.jpg`, deterministic in the
file id, and the updated row differs from the loaded one in that field
alone (lifecycle state, summary, tags, and filenames included in the
frame); on a skip or on any failure (which the queue retries, and on
exhaustion abandons) the table is untouched, so a `completed` record
stays `completed` with its thumbnail reference simply unset. -/
theorem C9_thumbnail_frame (env : ThumbEnv) (db : List FileRecord) (file_id : Nat)
    (r : FileRecord) (hfind : getRecord db file_id = some r) :
    (pyStartsWith r.mime_type "image/" = true →
      (∀ d tb, env.download r.file_path = some d → env.generate d = some tb →
        env.upload_ok = true →
        generate_thumbnail env db file_id =
          (.success file_id (get_thumbnail_path file_id),
           updateRecord db { r with thumbnail_path := some (get_thumbnail_path file_id) },
           [(get_thumbnail_path file_id, tb)])) ∧
      (env.download r.file_path = none →
        generate_thumbnail env db file_id =
          (.retryRequested "download failed", db, [])) ∧
      (∀ d, env.download r.file_path = some d → env.generate d = none →
        generate_thumbnail env db file_id =
          (.retryRequested "Failed to generate thumbnail", db, [])) ∧
      (∀ d tb, env.download r.file_path = some d → env.generate d = some tb →
        env.upload_ok = false →
        generate_thumbnail env db file_id =
          (.retryRequested "upload failed", db, []))) ∧
    (pyStartsWith r.mime_type "image/" = false →
      generate_thumbnail env db file_id = (.skipped file_id "Not an image file", db, [])) ∧
    (r.mime_type = "application/pdf" →
      (∀ d tb, env.download r.file_path = some d → env.generate d = some tb →
        env.upload_ok = true →
        generate_pdf_thumbnail env db file_id =
          (.success file_id (get_thumbnail_path file_id),
           updateRecord db { r with thumbnail_path := some (get_thumbnail_path file_id) },
           [(get_thumbnail_path file_id, tb)])) ∧
      (env.download r.file_path = none →
        generate_pdf_thumbnail env db file_id =
          (.retryRequested "download failed", db, [])) ∧
      (∀ d, env.download r.file_path = some d → env.generate d = none →
        generate_pdf_thumbnail env db file_id =
          (.retryRequested "Failed to generate PDF thumbnail", db, [])) ∧
      (∀ d tb, env.download r.file_path = some d → env.generate d = some tb →
        env.upload_ok = false →
        generate_pdf_thumbnail env db file_id =
          (.retryRequested "upload failed", db, []))) ∧
    (r.mime_type ≠ "application/pdf" →
      generate_pdf_thumbnail env db file_id =
        (.skipped file_id "Not a PDF file", db, [])) := by
  refine ⟨fun himg => ⟨?_, ?_, ?_, ?_⟩, fun himg => ?_,
    fun hpdf => ⟨?_, ?_, ?_, ?_⟩, fun hpdf => ?_⟩
  · intro d tb hdl hgen hup
    simp [generate_thumbnail, hfind, himg, hdl, hgen, hup]
  · intro hdl
    simp [generate_thumbnail, hfind, himg, hdl]
  · intro d hdl hgen
    simp [generate_thumbnail, hfind, himg, hdl, hgen]
  · intro d tb hdl hgen hup
    simp [generate_thumbnail, hfind, himg, hdl, hgen, hup]
  · simp [generate_thumbnail, hfind, himg]
  · intro d tb hdl hgen hup
    simp [generate_pdf_thumbnail, hfind, hpdf, hdl, hgen, hup]
  · intro hdl
    simp [generate_pdf_thumbnail, hfind, hpdf, hdl]
  · intro d hdl hgen
    simp [generate_pdf_thumbnail, hfind, hpdf, hdl, hgen]
  · intro d tb hdl hgen hup
    simp [generate_pdf_thumbnail, hfind, hpdf, hdl, hgen, hup]
  · simp [generate_pdf_thumbnail, hfind, hpdf]

/-- Witness for C9 at concrete inputs: a successful thumbnail for the
completed image record `recImg`, and the PDF task skipping it. -/
theorem C9_thumbnail_frame_witness :
    generate_thumbnail tenvOk [recImg] 3 =
      (.success 3 (get_thumbnail_path 3),
       updateRecord [recImg] { recImg with thumbnail_path := some (get_thumbnail_path 3) },
       [(get_thumbnail_path 3, [5])]) ∧
    generate_pdf_thumbnail tenvOk [recImg] 3 =
      (.skipped 3 "Not a PDF file", [recImg], []) :=
  ⟨(C9_thumbnail_frame tenvOk [recImg] 3 recImg (by decide)).1 (by decide)
      |>.1 [9, 9] [5] rfl rfl rfl,
   (C9_thumbnail_frame tenvOk [recImg] 3 recImg (by decide)).2.2.2 (by decide)⟩

/-- C3: when the rate limiter allows the primary provider and the
primary then fails unrecoverably (its embedding sub-operation raises,
the one that does not degrade in place), the quota increment has already
happened, the error is not surfaced — `analyze_file` returns the full
secondary-provider result — and the usage log receives exactly one
`success=false, provider=gemini` entry followed by one
`success=true, provider=ollama` entry. -/
theorem C3_primary_failure_fails_over (genv : GeminiEnv) (oenv : OllamaEnv)
    (c : RateLimiter.Counters) (ttl : Int) (filename : String) (e : String)
    (hallow : (RateLimiter.check_rate_limit c).1 = true)
    (hfail : genv.embeddingResp = .error e) :
    AIService.analyze_file genv oenv c ttl filename =
      { result := AnalyzeResult.ofAI (OllamaService.analyze_file oenv filename) .ollama
        counters := RateLimiter.increment_usage c
        logs := [⟨false, .gemini, some e⟩, ⟨true, .ollama, none⟩] } := by
  have hc := check_rate_limit_eq_of_fst_true hallow
  simp [AIService.analyze_file, RateLimiter.should_use_fallback,
    RateLimiter.wait_if_needed, hc, hfail]

/-- Witness for C3 at a concrete input: fresh counters, a Gemini
embedding failure `boom`, a healthy Ollama. -/
theorem C3_primary_failure_fails_over_witness :
    (RateLimiter.check_rate_limit ⟨0, 0⟩).1 = true ∧
    genvBoom.embeddingResp = .error "boom" ∧
    AIService.analyze_file genvBoom oenvOk ⟨0, 0⟩ 0 "f.txt" =
      { result := AnalyzeResult.ofAI (OllamaService.analyze_file oenvOk "f.txt") .ollama
        counters := RateLimiter.increment_usage ⟨0, 0⟩
        logs := [⟨false, .gemini, some "boom"⟩, ⟨true, .ollama, none⟩] } :=
  ⟨by decide, rfl,
    C3_primary_failure_fails_over genvBoom oenvOk ⟨0, 0⟩ 0 "f.txt" "boom" (by decide) rfl⟩

/-- C4: when the per-minute counter is exhausted and the daily counter
is not, `analyze_file` routes to the secondary provider without raising
(the model's total Ollama path), returns its result with
`model_used = ollama`, and performs no quota increment. -/
theorem C4_rpm_exhausted_uses_secondary (genv : GeminiEnv) (oenv : OllamaEnv)
    (c : RateLimiter.Counters) (ttl : Int) (filename : String)
    (hrpm : RateLimiter.rpm_limit ≤ c.rpmCount)
    (hdaily : c.dailyCount < RateLimiter.daily_limit) :
    AIService.analyze_file genv oenv c ttl filename =
      { result := AnalyzeResult.ofAI (OllamaService.analyze_file oenv filename) .ollama
        counters := c
        logs := [⟨true, .ollama, none⟩] } ∧
    (AIService.analyze_file genv oenv c ttl filename).result.model_used = .ollama := by
  have hc := check_rate_limit_rpm hrpm
  constructor
  · simp [AIService.analyze_file, RateLimiter.should_use_fallback, hc]
  · simp [AIService.analyze_file, RateLimiter.should_use_fallback, hc, AnalyzeResult.ofAI]

/-- C6 counterexample: the claim promises that, for either provider, a
tag response wrapped in explanatory prose still parses when it contains
one well-formed array, and that a parse failure degrades to a single
fallback tag.  Concretely: the Gemini path, which only strips code
fences, returns its fallback on the prose-wrapped `proseResp` even
though the response contains a well-formed array; and the Ollama path
degrades to two fallback tags, not one, when no array can be parsed. -/
theorem C6_counterexample :
    AIService.generate_tags proseResp = AIService.fallbackTags ∧
    Json.parseTagArray "[\x7b\"tag\": \"education\", \"confidence\": 0.95\x7d]" =
      some [⟨"education", "0.95"⟩] ∧
    AIService.fallbackTags ≠ [(⟨"education", "0.95"⟩ : TagObj)] ∧
    OllamaService.generate_tags "no array here at all" = OllamaService.decodeErrorTags ∧
    OllamaService.decodeErrorTags.length ≠ 1 := by
  refine ⟨by decide, by decide, by decide, by decide, by decide⟩

/-- C6 as amended: the prose-tolerant extraction belongs to the
secondary provider — its bracket slice recovers a well-formed array out
of any wrapper whose prefix has no `[` and suffix no `]` — while the
primary provider parses only a response whose fence-stripped text is
exactly the array; on either side a parse failure degrades to that
side's fixed fallback tags (one generic tag for the primary, two for
the secondary) instead of raising. -/
theorem C6_amended_tag_parsing :
    (∀ resp ts, strContains (pyStrTrim resp) "```" = false →
       Json.parseTagArray (pyStrTrim resp) = some ts →
       AIService.generate_tags resp = ts) ∧
    (∀ resp, Json.parseTagArray (AIService.cleanFences (pyStrTrim resp)) = none →
       AIService.generate_tags resp = AIService.fallbackTags) ∧
    (∀ (p arr q : List Char) ts, '[' ∉ p → ']' ∉ q →
       arr.head? = some '[' → arr.getLast? = some ']' →
       pyStrTrim (String.mk (p ++ arr ++ q)) = String.mk (p ++ arr ++ q) →
       Json.parseTagArray (String.mk arr) = some ts →
       OllamaService.generate_tags (String.mk (p ++ arr ++ q)) = ts) ∧
    (∀ resp, Json.parseTagArray (OllamaService.extractArray (pyStrTrim resp)) = none →
       OllamaService.generate_tags resp = OllamaService.decodeErrorTags) := by
  refine ⟨?_, ?_, ?_, ?_⟩
  · intro resp ts hfence hparse
    have hjson : strContains (pyStrTrim resp) "```json" = false := by
      show hasSub (pyStrTrim resp).toList "```json".toList = false
      rw [show ("```json".toList = "```".toList ++ "json".toList) from rfl]
      exact hasSub_append_false hfence
    simp [AIService.generate_tags, AIService.cleanFences, hjson, hfence, hparse]
  · intro resp hnone
    simp [AIService.generate_tags, hnone]
  · intro p arr q ts hp hq h1 h2 htrim hparse
    have harr : arr ≠ [] := by intro h; simp [h] at h1
    obtain ⟨b, arr', hb⟩ := List.exists_cons_of_ne_nil harr
    have hbL : b = '[' := by rw [hb] at h1; simpa using h1
    have hmemL : '[' ∈ p ++ arr ++ q := by
      rw [hb, hbL]
      simp
    have hmemR : ']' ∈ p ++ arr ++ q := by
      have hg := List.getLast?_eq_getLast arr harr
      rw [hg] at h2
      have hlast : arr.getLast harr = ']' := by simpa using h2
      have hmem : ']' ∈ arr := hlast ▸ List.getLast_mem harr
      exact List.mem_append.mpr (Or.inl (List.mem_append.mpr (Or.inr hmem)))
    have hc1 : (p ++ arr ++ q).contains '[' = true := List.elem_eq_true_of_mem hmemL
    have hc2 : (p ++ arr ++ q).contains ']' = true := List.elem_eq_true_of_mem hmemR
    have hslice := sliceBrackets_decomp p arr q hp hq h1 h2
    have hextract : OllamaService.extractArray (String.mk (p ++ arr ++ q)) = String.mk arr := by
      unfold OllamaService.extractArray
      show (if (p ++ arr ++ q).contains '[' ∧ (p ++ arr ++ q).contains ']' then
        String.mk (OllamaService.sliceBrackets (p ++ arr ++ q))
      else String.mk (p ++ arr ++ q)) = String.mk arr
      rw [if_pos ⟨hc1, hc2⟩, hslice]
    unfold OllamaService.generate_tags
    rw [htrim, hextract, hparse]
  · intro resp hnone
    simp [OllamaService.generate_tags, hnone]

/-- Witness for the amended C6 at concrete inputs: an exact array parses
on the Gemini path, and a prose-wrapped array parses on the Ollama
path. -/
theorem C6_amended_tag_parsing_witness :
    AIService.generate_tags "[\x7b\"tag\": \"music\", \"confidence\": 0.7\x7d]" =
      [⟨"music", "0.7"⟩] ∧
    OllamaService.generate_tags
      (String.mk ("Here are the tags: ".toList ++
        "[\x7b\"tag\": \"education\", \"confidence\": 0.95\x7d]".toList ++ [])) =
      [⟨"education", "0.95"⟩] :=
  ⟨C6_amended_tag_parsing.1 _ _ (by decide) (by decide),
   C6_amended_tag_parsing.2.2.1 _ _ _ _ (by decide) (by decide) (by decide)
     (by decide) (by decide) (by decide)⟩

/-- Witness for C4 at a concrete input: 15 requests already in the
minute window, 20 today. -/
theorem C4_rpm_exhausted_uses_secondary_witness :
    RateLimiter.rpm_limit ≤ (⟨15, 20⟩ : RateLimiter.Counters).rpmCount ∧
    (⟨15, 20⟩ : RateLimiter.Counters).dailyCount < RateLimiter.daily_limit ∧
    (AIService.analyze_file genvBoom oenvOk ⟨15, 20⟩ 0 "f.txt" =
      { result := AnalyzeResult.ofAI (OllamaService.analyze_file oenvOk "f.txt") .ollama
        counters := ⟨15, 20⟩
        logs := [⟨true, .ollama, none⟩] } ∧
    (AIService.analyze_file genvBoom oenvOk ⟨15, 20⟩ 0 "f.txt").result.model_used = .ollama) :=
  ⟨by decide, by decide,
    C4_rpm_exhausted_uses_secondary genvBoom oenvOk ⟨15, 20⟩ 0 "f.txt" (by decide) (by decide)⟩

end Pipeline
